import Mathlib

/-!
Verification development for the Teleprompter SDK.

The SDK (src/src/index.ts plus a legacy unnamed module) consists of:
- the data model (`PromptInput`, `Prompt`, queue message bodies);
- `Teleprompter.HTTP`, an HTTP registry client dispatching requests either
  through a configured base URL or an injected fetcher binding;
- `Teleprompter.HandleUpdates`, a queue-batch consumer applying update/delete
  messages to a KV namespace;
- `Teleprompter.KV`, a KV-backed reader that lists, fetches and
  Mustache-renders stored prompts;
- `TeleprompterDOSDK` (legacy module), whose `rollbackPrompt` fetches all
  versions, finds the requested one and re-writes its body.

The embedding below models asynchronous methods as pure functions: network
and store collaborators become explicit function-valued oracles, thrown
exceptions become `Except` errors, and each HTTP operation additionally
returns the list of requests it issued so that request-trace properties
(no retry, no request before initialization) can be stated.
-/

namespace Teleprompter

/-- Model of the TS interface `PromptInput` ({ id, prompt }). -/
structure PromptInput where
  id : String
  prompt : String
deriving DecidableEq, Repr

/-- Model of the TS interface `Prompt` (PromptInput plus a version number). -/
structure Prompt where
  id : String
  prompt : String
  version : Int
deriving DecidableEq, Repr

/-- The errors thrown by the SDK, one constructor per distinct `throw new
Error(...)` site: the initialization failure of `HTTP.fetch`, the
`HTTP error! status: ...` failures, the legacy DO SDK's `Version not found`,
and `KV.render`'s `Prompt '<id>' not found`. -/
inductive SdkError where
  | initError
  | httpError (status : Nat)
  | versionNotFound
  | promptNotFound (id : String)
deriving DecidableEq, Repr

/-- The double-quote character, used by the JSON serializer model. -/
def quoteChar : Char := Char.ofNat 34

/-- The backslash character. -/
def backslashChar : Char := Char.ofNat 92

/-- JSON string escaping for one character, as performed by
`JSON.stringify` on the quote and backslash characters (control-character
escapes are not needed by any input considered here). -/
def jsonEscapeChar (c : Char) : String :=
  if c == quoteChar then "\\\""
  else if c == backslashChar then "\\\\"
  else String.singleton c

/-- JSON string-content escaping. -/
def jsonEscape (s : String) : String := String.join (s.data.map jsonEscapeChar)

/-- A JSON string literal: quoted, escaped content. -/
def jsonStr (s : String) : String := "\"" ++ jsonEscape s ++ "\""

/-- The shared leading part of `JSON.stringify` output for an object whose
first three properties are id, prompt, version (TS property creation order
for both `Prompt` and `Messages.PromptUpdate`). -/
def promptJsonCore (id prompt : String) (version : Int) : String :=
  "\x7b\"id\":" ++ jsonStr id ++ ",\"prompt\":" ++ jsonStr prompt
    ++ ",\"version\":" ++ toString version

/-- `JSON.stringify` of a bare `PromptInput`, as sent by `HTTP.writePrompt`. -/
def stringifyPromptInput (p : PromptInput) : String :=
  "\x7b\"id\":" ++ jsonStr p.id ++ ",\"prompt\":" ++ jsonStr p.prompt ++ "\x7d"

/-- `JSON.stringify` of a bare `Prompt` record (no discriminator tag). -/
def stringifyPrompt (p : Prompt) : String :=
  promptJsonCore p.id p.prompt p.version ++ "\x7d"

/-- Runtime shape of a queue message body as consumed by `HandleUpdates`:
the union `Messages.PromptUpdate | Messages.PromptDelete` plus, for the
frame claims, bodies carrying any other discriminator tag. A delete body's
`prompt`/`version` fields are never read by the relay. -/
structure MessageBody where
  id : String
  prompt : String
  version : Int
  type : String
deriving DecidableEq, Repr

/-- `JSON.stringify` of a `Messages.PromptUpdate` body: id, prompt, version
in spread order followed by the discriminator tag property. -/
def stringifyMessageBody (m : MessageBody) : String :=
  promptJsonCore m.id m.prompt m.version
    ++ (",\"type\":" ++ jsonStr m.type ++ "\x7d")

/-- Model of `Teleprompter.UpdateMessage`: spreads a `Prompt` and adds the
`prompt-update` discriminator. -/
def UpdateMessage (p : Prompt) : MessageBody :=
  { id := p.id, prompt := p.prompt, version := p.version, type := "prompt-update" }

/-- The KV namespace contents: an association list from key to the stored
serialized string, at most one entry per key. -/
abbrev Store := List (String × String)

/-- KV `put`: overwrite the entry at the key, or append a fresh entry. -/
def kvPut : Store → String → String → Store
  | [], k, v => [(k, v)]
  | (k', v') :: rest, k, v =>
    if k' = k then (k, v) :: rest else (k', v') :: kvPut rest k v

/-- KV lookup of the stored string at a key. -/
def kvGetS : Store → String → Option String
  | [], _ => none
  | (k', v') :: rest, k => if k' = k then some v' else kvGetS rest k

/-- KV `delete`: remove every entry at the key. -/
def kvDelete : Store → String → Store
  | [], _ => []
  | (k', v') :: rest, k =>
    if k' = k then kvDelete rest k else (k', v') :: kvDelete rest k

/-- The external KV namespace as seen by the relay: `put` and `delete` are
awaited calls that either return the updated store or reject (`Except.error`).
The relay has no catch, so a rejection propagates. -/
structure ENVModel where
  put : String → String → Store → Except Unit Store
  delete : String → Store → Except Unit Store

/-- One iteration of the `switch (message.body.type)` in `HandleUpdates`:
`prompt-update` puts the serialized body at its id, `prompt-delete` deletes
at its id, and any other tag matches no case and does nothing. -/
def relayStep (env : ENVModel) (m : MessageBody) (st : Store) : Except Unit Store :=
  if m.type = "prompt-update" then env.put m.id (stringifyMessageBody m) st
  else if m.type = "prompt-delete" then env.delete m.id st
  else .ok st

/-- Model of `Teleprompter.HandleUpdates`: process the batch in order; an
uncaught store rejection stops the loop and propagates, carrying the store
state reached so far (`Except.error`). -/
def HandleUpdates (env : ENVModel) : List MessageBody → Store → Except Store Store
  | [], st => .ok st
  | m :: rest, st =>
    match relayStep env m st with
    | .error _ => .error st
    | .ok st2 => HandleUpdates env rest st2

/-- The KV namespace behaving normally: puts and deletes always succeed. -/
def kvEnv : ENVModel where
  put := fun k v st => .ok (kvPut st k v)
  delete := fun k st => .ok (kvDelete st k)

/-- A KV namespace whose `put` always rejects, for exercising the relay's
failure propagation. -/
def failPutEnv : ENVModel where
  put := fun _ _ _ => .error ()
  delete := fun k st => .ok (kvDelete st k)

end Teleprompter

namespace Teleprompter

/-- An HTTP request as observed by the transport: resolved URL, method, and
optional serialized body. The `Content-Type` header set by `writePrompt` is
not modelled; no claim concerns headers. -/
structure Request where
  url : String
  method : String
  body : Option String
deriving DecidableEq, Repr

/-- An HTTP response as consumed by the client: the code only ever reads
`response.ok`, `response.status` and `response.json()`; the decoded JSON
body is the type parameter (the TS code casts it without validation). -/
structure Response (β : Type) where
  ok : Bool
  status : Nat
  body : β

/-- The private field state of a `Teleprompter.HTTP` instance: an optional
base URL and whether a fetcher binding is present. -/
structure HTTPConfig where
  baseUrl : Option String
  binding : Bool
deriving DecidableEq, Repr

/-- The constructor argument `urlOrBinding : string | Fetcher`. -/
inductive UrlOrBinding where
  | url (s : String)
  | binding
deriving DecidableEq, Repr

/-- JavaScript truthiness of an optional string: `undefined` and the empty
string are falsy, every other string is truthy. This is the test
`if (this.baseUrl)` performs. -/
def strTruthy : Option String → Bool
  | some s => !(s == "")
  | none => false

/-- Model of `new URL(path, base).toString()` for the root-relative paths
this SDK passes (every path starts with a slash) against a bare-origin
base, which resolves to the origin followed by the path. -/
def resolveUrl (base path : String) : String := base ++ path

/-- The request the client builds in its base-URL branch for a given path,
method and body. -/
def reqOf (cfg : HTTPConfig) (path method : String) (body : Option String) : Request :=
  { url := resolveUrl (cfg.baseUrl.getD "") path, method := method, body := body }

namespace HTTP

/-- The `Teleprompter.HTTP` constructor: a string argument sets `baseUrl`,
any other argument sets `binding`. -/
def construct : UrlOrBinding → HTTPConfig
  | .url s => { baseUrl := some s, binding := false }
  | .binding => { baseUrl := none, binding := true }

/-- The private `HTTP.fetch` helper: dispatch through the base URL if it is
truthy, else through the binding if present, else throw the initialization
error. The `world` oracle stands for both the global `fetch` and the
binding's `fetch`; the issued request is recorded in the returned trace. -/
def fetch {β : Type} (cfg : HTTPConfig) (world : Request → Response β)
    (path method : String) (reqBody : Option String) :
    Except SdkError (Response β) × List Request :=
  if strTruthy cfg.baseUrl then
    (.ok (world (reqOf cfg path method reqBody)), [reqOf cfg path method reqBody])
  else if cfg.binding then
    (.ok (world { url := resolveUrl "https://dummy" path, method := method, body := reqBody }),
      [{ url := resolveUrl "https://dummy" path, method := method, body := reqBody }])
  else
    (.error .initError, [])

/-- `HTTP.listPrompts`: GET /prompts, throw on non-ok, return the JSON body. -/
def listPrompts {β : Type} (cfg : HTTPConfig) (world : Request → Response β) :
    Except SdkError β × List Request :=
  match HTTP.fetch cfg world "/prompts" "GET" none with
  | (.error e, tr) => (.error e, tr)
  | (.ok response, tr) =>
    if !response.ok then (.error (.httpError response.status), tr)
    else (.ok response.body, tr)

/-- `HTTP.getPrompt`: GET /prompts/{id}, throw on non-ok, return the body. -/
def getPrompt {β : Type} (cfg : HTTPConfig) (world : Request → Response β)
    (id : String) : Except SdkError β × List Request :=
  match HTTP.fetch cfg world ("/prompts/" ++ id) "GET" none with
  | (.error e, tr) => (.error e, tr)
  | (.ok response, tr) =>
    if !response.ok then (.error (.httpError response.status), tr)
    else (.ok response.body, tr)

/-- `HTTP.getPromptVersions`: GET /prompts/{id}/versions. -/
def getPromptVersions {β : Type} (cfg : HTTPConfig) (world : Request → Response β)
    (id : String) : Except SdkError β × List Request :=
  match HTTP.fetch cfg world ("/prompts/" ++ id ++ "/versions") "GET" none with
  | (.error e, tr) => (.error e, tr)
  | (.ok response, tr) =>
    if !response.ok then (.error (.httpError response.status), tr)
    else (.ok response.body, tr)

/-- `HTTP.writePrompt`: POST /prompts with the JSON-serialized input, throw
on non-ok, return nothing. -/
def writePrompt {β : Type} (cfg : HTTPConfig) (world : Request → Response β)
    (p : PromptInput) : Except SdkError Unit × List Request :=
  match HTTP.fetch cfg world "/prompts" "POST" (some (stringifyPromptInput p)) with
  | (.error e, tr) => (.error e, tr)
  | (.ok response, tr) =>
    if !response.ok then (.error (.httpError response.status), tr)
    else (.ok (), tr)

/-- `HTTP.deletePrompt`: DELETE /prompts/{id}. -/
def deletePrompt {β : Type} (cfg : HTTPConfig) (world : Request → Response β)
    (id : String) : Except SdkError Unit × List Request :=
  match HTTP.fetch cfg world ("/prompts/" ++ id) "DELETE" none with
  | (.error e, tr) => (.error e, tr)
  | (.ok response, tr) =>
    if !response.ok then (.error (.httpError response.status), tr)
    else (.ok (), tr)

/-- `HTTP.rollbackPrompt`: a single POST to /prompts/{id}/versions/{version};
the server performs the rollback. No versions are fetched client-side. -/
def rollbackPrompt {β : Type} (cfg : HTTPConfig) (world : Request → Response β)
    (id : String) (version : Int) : Except SdkError Unit × List Request :=
  match HTTP.fetch cfg world ("/prompts/" ++ id ++ "/versions/" ++ toString version)
      "POST" none with
  | (.error e, tr) => (.error e, tr)
  | (.ok response, tr) =>
    if !response.ok then (.error (.httpError response.status), tr)
    else (.ok (), tr)

end HTTP

/-- The opening-brace character of a mustache tag. -/
def braceL : Char := Char.ofNat 123

/-- The closing-brace character of a mustache tag. -/
def braceR : Char := Char.ofNat 125

/-- HTML escaping of one character, mustache's default treatment of
interpolated variables (ampersand, angle brackets, double quote). -/
def htmlEscapeChar (c : Char) : String :=
  if c == '&' then "&amp;"
  else if c == '<' then "&lt;"
  else if c == '>' then "&gt;"
  else if c == quoteChar then "&quot;"
  else String.singleton c

/-- HTML escaping of a string. -/
def htmlEscape (s : String) : String := String.join (s.data.map htmlEscapeChar)

/-- A render context: a finite map from variable names to string values. -/
def ctxLookup (ctx : List (String × String)) (name : String) : String :=
  match ctx.find? (fun e => e.1 == name) with
  | some e => e.2
  | none => ""

/-- Scan forward to the first closing double brace, returning the tag name
characters and the remaining input. -/
def splitTag : List Char → Option (List Char × List Char)
  | [] => none
  | c :: cs =>
    if c == braceR && cs.head? == some braceR then some ([], cs.tail)
    else
      match splitTag cs with
      | some (nm, rest) => some (c :: nm, rest)
      | none => none

/-- Fuelled single pass over the template characters: a double open brace
starts a variable tag whose looked-up value is HTML-escaped into the
output; everything else is copied. -/
def renderAux (ctx : List (String × String)) : Nat → List Char → String
  | 0, cs => String.mk cs
  | _ + 1, [] => ""
  | fuel + 1, c :: cs =>
    if c == braceL && cs.head? == some braceL then
      match splitTag cs.tail with
      | some (nm, rest) => htmlEscape (ctxLookup ctx (String.mk nm)) ++ renderAux ctx fuel rest
      | none => String.mk (c :: cs)
    else String.singleton c ++ renderAux ctx fuel cs

/-- Modelled from the spec: the external mustache renderer used by
`KV.render` is not part of this repository, so its single-pass variable
interpolation (double-brace tags, HTML-escaped substitution, empty output
for missing keys) is modelled here from the spec's description; section
blocks and unescaped-variable tags are not needed by any claim and are not
modelled. -/
def mustacheRender (template : String) (ctx : List (String × String)) : String :=
  renderAux ctx template.length template.data

/-- The KV namespace as seen by the `Teleprompter.KV` reader: an
enumeration of keys and a typed-JSON getter (`get(key, 'json')`), which
yields `none` for an absent or undecodable entry. -/
structure KVRead where
  keys : List String
  getJson : String → Option Prompt

namespace KV

/-- `KV.list`: enumerate the keys, fetch each value, filter out nulls. -/
def list (kv : KVRead) : List Prompt :=
  (kv.keys.map kv.getJson).filterMap id

/-- `KV.get`: a typed-JSON fetch of one id. -/
def get (kv : KVRead) (id : String) : Option Prompt := kv.getJson id

/-- `KV.render`: fetch via `get`; throw `Prompt '<id>' not found` when
absent, otherwise mustache-render the stored body against the context. -/
def render (kv : KVRead) (id : String) (ctx : List (String × String)) :
    Except SdkError String :=
  match KV.get kv id with
  | none => .error (.promptNotFound id)
  | some p => .ok (mustacheRender p.prompt ctx)

end KV

/-- A transport oracle answering every request with 404 Not Found. -/
def w404 : Request → Response Unit := fun _ => { ok := false, status := 404, body := () }

/-- A transport oracle answering every request with 200 OK. -/
def wOk : Request → Response Unit := fun _ => { ok := true, status := 200, body := () }

/-- A transport oracle answering every request with 418, a non-success
status the client has no special handling for. -/
def wTeapot : Request → Response Unit := fun _ => { ok := false, status := 418, body := () }

/-- A version history for id "p" with versions 1 and 2. -/
def vlist : String → List Prompt :=
  fun _ => [{ id := "p", prompt := "body-v1", version := 1 },
            { id := "p", prompt := "body-v2", version := 2 }]

/-- A durable-object write that always succeeds. -/
def wrOk : PromptInput → Except SdkError Unit := fun _ => .ok ()

/-- A two-key KV store where only the first key resolves. -/
def kvSample : KVRead where
  keys := ["k1", "k2"]
  getJson := fun k => if k == "k1" then some { id := "k1", prompt := "b", version := 1 } else none

/-- A KV store holding the spec's greeting template. -/
def kvGreeting : KVRead where
  keys := ["greeting"]
  getJson := fun k =>
    if k == "greeting" then
      some { id := "greeting", prompt := "Hello \x7b\x7bname\x7d\x7d!", version := 1 }
    else none

end Teleprompter

/-- Model of the legacy `TeleprompterDOSDK.rollbackPrompt`: fetch all
versions of the id from the durable object, find the entry whose version
number equals the requested one, and write that entry's body as a new
prompt; if none matches, throw `Version not found`. The result pairs the
outcome with the list of writes issued. -/
def TeleprompterDOSDK.rollbackPrompt
    (getVersions : String → List Teleprompter.Prompt)
    (write : Teleprompter.PromptInput → Except Teleprompter.SdkError Unit)
    (id : String) (version : Int) :
    Except Teleprompter.SdkError Unit × List Teleprompter.PromptInput :=
  match (getVersions id).find? (fun v => v.version == version) with
  | none => (.error .versionNotFound, [])
  | some rbVer =>
    (write { id := id, prompt := rbVer.prompt }, [{ id := id, prompt := rbVer.prompt }])

namespace Teleprompter

/-- Looking up a key right after putting it yields the value just put. -/
theorem kvGetS_kvPut_self (st : Store) (k v : String) :
    kvGetS (kvPut st k v) k = some v := by
  induction st with
  | nil => simp [kvPut, kvGetS]
  | cons e rest ih =>
    by_cases h : e.1 = k
    · simp [kvPut, kvGetS, h]
    · simp [kvPut, kvGetS, h, ih]

/-- Looking up a key right after deleting it yields nothing. -/
theorem kvGetS_kvDelete_self (st : Store) (k : String) :
    kvGetS (kvDelete st k) k = none := by
  induction st with
  | nil => simp [kvDelete, kvGetS]
  | cons e rest ih =>
    by_cases h : e.1 = k
    · simp [kvDelete, h, ih]
    · simp [kvDelete, kvGetS, h, ih]

/-- If the relay gets through a prefix of the batch successfully, running
the whole batch continues from the state the prefix reached. -/
theorem handleUpdates_append (env : ENVModel) (xs ys : List MessageBody)
    (st st' : Store) (h : HandleUpdates env xs st = .ok st') :
    HandleUpdates env (xs ++ ys) st = HandleUpdates env ys st' := by
  induction xs generalizing st with
  | nil =>
    simp [HandleUpdates] at h
    simp [h]
  | cons m rest ih =>
    cases hs : relayStep env m st with
    | error e => simp [HandleUpdates, hs] at h
    | ok st2 =>
      simp only [HandleUpdates, hs, List.cons_append] at h ⊢
      exact ih st2 h

/-- C2: any Registry Client operation invoked while neither a base URL nor
a fetcher binding is configured fails with the initialization error and
issues no request at all. -/
theorem ops_fail_without_transport {β : Type} (world : Request → Response β)
    (id : String) (p : PromptInput) (version : Int) :
    HTTP.listPrompts { baseUrl := none, binding := false } world = (.error .initError, [])
    ∧ HTTP.getPrompt { baseUrl := none, binding := false } world id = (.error .initError, [])
    ∧ HTTP.getPromptVersions { baseUrl := none, binding := false } world id
        = (.error .initError, [])
    ∧ HTTP.writePrompt { baseUrl := none, binding := false } world p = (.error .initError, [])
    ∧ HTTP.deletePrompt { baseUrl := none, binding := false } world id = (.error .initError, [])
    ∧ HTTP.rollbackPrompt { baseUrl := none, binding := false } world id version
        = (.error .initError, []) :=
  ⟨rfl, rfl, rfl, rfl, rfl, rfl⟩

/-- C9: constructing the client with the empty string as base URL leaves
the binding unset and stores an empty base URL, which the truthiness check
in `HTTP.fetch` treats as absent, so every operation fails with the
initialization error and issues no request. -/
theorem empty_base_url_fails {β : Type} (world : Request → Response β)
    (id : String) (p : PromptInput) (version : Int) :
    HTTP.construct (.url "") = { baseUrl := some "", binding := false }
    ∧ HTTP.listPrompts (HTTP.construct (.url "")) world = (.error .initError, [])
    ∧ HTTP.getPrompt (HTTP.construct (.url "")) world id = (.error .initError, [])
    ∧ HTTP.getPromptVersions (HTTP.construct (.url "")) world id = (.error .initError, [])
    ∧ HTTP.writePrompt (HTTP.construct (.url "")) world p = (.error .initError, [])
    ∧ HTTP.deletePrompt (HTTP.construct (.url "")) world id = (.error .initError, [])
    ∧ HTTP.rollbackPrompt (HTTP.construct (.url "")) world id version
        = (.error .initError, []) :=
  ⟨rfl, rfl, rfl, rfl, rfl, rfl, rfl⟩

/-- C10: a batch message whose discriminator tag is neither `prompt-update`
nor `prompt-delete` matches no case of the relay's switch: no error is
raised, the store is untouched, and processing continues with the rest of
the batch. -/
theorem handleUpdates_skips_unknown_type (env : ENVModel) (m : MessageBody)
    (rest : List MessageBody) (st : Store)
    (h1 : m.type ≠ "prompt-update") (h2 : m.type ≠ "prompt-delete") :
    HandleUpdates env (m :: rest) st = HandleUpdates env rest st := by
  simp [HandleUpdates, relayStep, h1, h2]

/-- Witness for C10 at a concrete unknown-tagged message over the normal
KV environment and the empty store. -/
theorem handleUpdates_skips_unknown_type_witness :
    (({ id := "x", prompt := "b", version := 1, type := "other" } : MessageBody).type
        ≠ "prompt-update")
    ∧ (({ id := "x", prompt := "b", version := 1, type := "other" } : MessageBody).type
        ≠ "prompt-delete")
    ∧ HandleUpdates kvEnv [{ id := "x", prompt := "b", version := 1, type := "other" }] []
        = HandleUpdates kvEnv [] [] :=
  ⟨by decide, by decide,
    handleUpdates_skips_unknown_type kvEnv
      { id := "x", prompt := "b", version := 1, type := "other" } [] []
      (by decide) (by decide)⟩

end Teleprompter

namespace Teleprompter

/-- C4: the relay processes the batch head before the tail; an update
message overwrites the store entry at its id with its JSON serialization,
which carries the discriminator tag and so differs from the serialization
of the bare record; a delete message removes the entry at its id. -/
theorem handleUpdates_processes_in_order (m : MessageBody)
    (rest : List MessageBody) (st : Store) :
    (m.type = "prompt-update" →
      HandleUpdates kvEnv (m :: rest) st
          = HandleUpdates kvEnv rest (kvPut st m.id (stringifyMessageBody m))
        ∧ kvGetS (kvPut st m.id (stringifyMessageBody m)) m.id
            = some (stringifyMessageBody m)
        ∧ stringifyMessageBody m
            ≠ stringifyPrompt { id := m.id, prompt := m.prompt, version := m.version })
    ∧ (m.type = "prompt-delete" →
      HandleUpdates kvEnv (m :: rest) st = HandleUpdates kvEnv rest (kvDelete st m.id)
        ∧ kvGetS (kvDelete st m.id) m.id = none) := by
  constructor
  · intro h
    refine ⟨by simp [HandleUpdates, relayStep, h, kvEnv], kvGetS_kvPut_self st m.id _, ?_⟩
    intro heq
    have hl := congrArg String.length heq
    simp only [stringifyMessageBody, stringifyPrompt, String.length_append] at hl
    have h8 : (",\"type\":" : String).length = 8 := by decide
    have h1 : ("\x7d" : String).length = 1 := by decide
    rw [h8, h1] at hl
    omega
  · intro h
    exact ⟨by simp [HandleUpdates, relayStep, h, kvEnv], kvGetS_kvDelete_self st m.id⟩

/-- Witness for C4: one concrete update and one concrete delete message
over the empty store. -/
theorem handleUpdates_processes_in_order_witness :
    (({ id := "a", prompt := "hello", version := 2, type := "prompt-update" } : MessageBody).type
        = "prompt-update")
    ∧ (HandleUpdates kvEnv [{ id := "a", prompt := "hello", version := 2, type := "prompt-update" }] []
        = HandleUpdates kvEnv []
            (kvPut [] "a" (stringifyMessageBody
              { id := "a", prompt := "hello", version := 2, type := "prompt-update" }))
      ∧ kvGetS (kvPut [] "a" (stringifyMessageBody
              { id := "a", prompt := "hello", version := 2, type := "prompt-update" })) "a"
          = some (stringifyMessageBody
              { id := "a", prompt := "hello", version := 2, type := "prompt-update" })
      ∧ stringifyMessageBody
            { id := "a", prompt := "hello", version := 2, type := "prompt-update" }
          ≠ stringifyPrompt { id := "a", prompt := "hello", version := 2 })
    ∧ (({ id := "a", prompt := "", version := 0, type := "prompt-delete" } : MessageBody).type
        = "prompt-delete")
    ∧ (HandleUpdates kvEnv [{ id := "a", prompt := "", version := 0, type := "prompt-delete" }]
          [("a", "x")]
        = HandleUpdates kvEnv [] (kvDelete [("a", "x")] "a")
      ∧ kvGetS (kvDelete [("a", "x")] "a") "a" = none) :=
  ⟨rfl,
    (handleUpdates_processes_in_order
      { id := "a", prompt := "hello", version := 2, type := "prompt-update" } [] []).1 rfl,
    rfl,
    (handleUpdates_processes_in_order
      { id := "a", prompt := "", version := 0, type := "prompt-delete" } [] [("a", "x")]).2 rfl⟩

/-- C5: if every message of a prefix succeeds and the store operation for
the next message rejects, the relay propagates that rejection: the result
is the error outcome, the store keeps exactly the writes of the prefix,
and the messages after the failing one are never processed. -/
theorem handleUpdates_failure_propagates (env : ENVModel) (pre : List MessageBody)
    (m : MessageBody) (post : List MessageBody) (st0 stk : Store)
    (hpre : HandleUpdates env pre st0 = .ok stk)
    (hfail : relayStep env m stk = .error ()) :
    HandleUpdates env (pre ++ m :: post) st0 = .error stk := by
  rw [handleUpdates_append env pre (m :: post) st0 stk hpre]
  simp [HandleUpdates, hfail]

/-- Witness for C5: a delete for "a" succeeds, then a put for "b" rejects;
the batch result is the propagated error at the post-delete store, with the
trailing update never applied. -/
theorem handleUpdates_failure_propagates_witness :
    HandleUpdates failPutEnv
        [{ id := "a", prompt := "", version := 0, type := "prompt-delete" }] [("a", "x")]
      = .ok []
    ∧ relayStep failPutEnv
        { id := "b", prompt := "p", version := 1, type := "prompt-update" } [] = .error ()
    ∧ HandleUpdates failPutEnv
        ([{ id := "a", prompt := "", version := 0, type := "prompt-delete" }]
          ++ { id := "b", prompt := "p", version := 1, type := "prompt-update" }
            :: [{ id := "c", prompt := "q", version := 1, type := "prompt-update" }])
        [("a", "x")]
      = .error [] :=
  ⟨rfl, rfl,
    handleUpdates_failure_propagates failPutEnv
      [{ id := "a", prompt := "", version := 0, type := "prompt-delete" }]
      { id := "b", prompt := "p", version := 1, type := "prompt-update" }
      [{ id := "c", prompt := "q", version := 1, type := "prompt-update" }]
      [("a", "x")] [] rfl rfl⟩

/-- C6: two updates for the same id in one batch both apply in order, so
the later one wins; an update followed by a delete for the same id leaves
no entry for that id. -/
theorem handleUpdates_last_write_wins (st : Store) (m1 m2 d : MessageBody) (id : String) :
    (m1.type = "prompt-update" → m2.type = "prompt-update" → m1.id = id → m2.id = id →
      HandleUpdates kvEnv [m1, m2] st
          = .ok (kvPut (kvPut st id (stringifyMessageBody m1)) id (stringifyMessageBody m2))
        ∧ kvGetS (kvPut (kvPut st id (stringifyMessageBody m1)) id (stringifyMessageBody m2)) id
            = some (stringifyMessageBody m2))
    ∧ (m1.type = "prompt-update" → d.type = "prompt-delete" → m1.id = id → d.id = id →
      HandleUpdates kvEnv [m1, d] st
          = .ok (kvDelete (kvPut st id (stringifyMessageBody m1)) id)
        ∧ kvGetS (kvDelete (kvPut st id (stringifyMessageBody m1)) id) id = none) := by
  constructor
  · intro h1 h2 e1 e2
    constructor
    · simp [HandleUpdates, relayStep, h1, h2, e1, e2, kvEnv]
    · exact kvGetS_kvPut_self _ id _
  · intro h1 h2 e1 e2
    constructor
    · simp [HandleUpdates, relayStep, h1, h2, e1, e2, kvEnv]
    · exact kvGetS_kvDelete_self _ id

/-- Witness for C6: the spec's two concrete batches for id "A" and id "x". -/
theorem handleUpdates_last_write_wins_witness :
    (({ id := "A", prompt := "v1", version := 1, type := "prompt-update" } : MessageBody).type
        = "prompt-update")
    ∧ (HandleUpdates kvEnv
          [{ id := "A", prompt := "v1", version := 1, type := "prompt-update" },
           { id := "A", prompt := "v2", version := 2, type := "prompt-update" }] []
        = .ok (kvPut (kvPut [] "A" (stringifyMessageBody
              { id := "A", prompt := "v1", version := 1, type := "prompt-update" })) "A"
            (stringifyMessageBody
              { id := "A", prompt := "v2", version := 2, type := "prompt-update" }))
      ∧ kvGetS (kvPut (kvPut [] "A" (stringifyMessageBody
              { id := "A", prompt := "v1", version := 1, type := "prompt-update" })) "A"
            (stringifyMessageBody
              { id := "A", prompt := "v2", version := 2, type := "prompt-update" })) "A"
          = some (stringifyMessageBody
              { id := "A", prompt := "v2", version := 2, type := "prompt-update" }))
    ∧ (HandleUpdates kvEnv
          [{ id := "x", prompt := "v1", version := 1, type := "prompt-update" },
           { id := "x", prompt := "", version := 0, type := "prompt-delete" }] []
        = .ok (kvDelete (kvPut [] "x" (stringifyMessageBody
              { id := "x", prompt := "v1", version := 1, type := "prompt-update" })) "x")
      ∧ kvGetS (kvDelete (kvPut [] "x" (stringifyMessageBody
              { id := "x", prompt := "v1", version := 1, type := "prompt-update" })) "x") "x"
          = none) :=
  ⟨rfl,
    (handleUpdates_last_write_wins []
      { id := "A", prompt := "v1", version := 1, type := "prompt-update" }
      { id := "A", prompt := "v2", version := 2, type := "prompt-update" }
      { id := "A", prompt := "", version := 0, type := "prompt-delete" } "A").1
      rfl rfl rfl rfl,
    (handleUpdates_last_write_wins []
      { id := "x", prompt := "v1", version := 1, type := "prompt-update" }
      { id := "x", prompt := "v2", version := 2, type := "prompt-update" }
      { id := "x", prompt := "", version := 0, type := "prompt-delete" } "x").2
      rfl rfl rfl rfl⟩

end Teleprompter

namespace Teleprompter

/-- C7: `KV.list` fetches the value of every enumerated key and returns
exactly the values that resolved, in enumeration order; in particular a
store with one resolvable key and one absent key yields exactly the one
record. -/
theorem kv_list_spec :
    (∀ kv : KVRead, KV.list kv = kv.keys.filterMap kv.getJson)
    ∧ (∀ (kv : KVRead) (k1 k2 : String) (p : Prompt),
        kv.keys = [k1, k2] → kv.getJson k1 = some p → kv.getJson k2 = none →
        KV.list kv = [p]) := by
  constructor
  · intro kv
    unfold KV.list
    induction kv.keys with
    | nil => simp
    | cons k ks ih => simp [List.filterMap_cons, ih]
  · intro kv k1 k2 p hk h1 h2
    simp [KV.list, hk, h1, h2]

/-- Witness for C7 at the concrete two-key sample store. -/
theorem kv_list_spec_witness :
    kvSample.keys = ["k1", "k2"]
    ∧ kvSample.getJson "k1" = some { id := "k1", prompt := "b", version := 1 }
    ∧ kvSample.getJson "k2" = none
    ∧ KV.list kvSample = [{ id := "k1", prompt := "b", version := 1 }] :=
  ⟨rfl, rfl, rfl,
    kv_list_spec.2 kvSample "k1" "k2" { id := "k1", prompt := "b", version := 1 }
      rfl rfl rfl⟩

/-- C8: `KV.render` fetches the record through `KV.get`; an absent record
fails with the not-found error, a present record renders its body against
the context with the mustache interpolation model; the spec's greeting
template renders to the expected string. -/
theorem kv_render_spec (kv : KVRead) (id : String) (ctx : List (String × String)) :
    (kv.getJson id = none → KV.render kv id ctx = .error (.promptNotFound id))
    ∧ (∀ p, kv.getJson id = some p →
        KV.render kv id ctx = .ok (mustacheRender p.prompt ctx))
    ∧ (∀ p, kv.getJson id = some p → p.prompt = "Hello \x7b\x7bname\x7d\x7d!" →
        KV.render kv id [("name", "World")] = .ok "Hello World!") := by
  refine ⟨?_, ?_, ?_⟩
  · intro h
    simp [KV.render, KV.get, h]
  · intro p h
    simp [KV.render, KV.get, h]
  · intro p h hp
    simp only [KV.render, KV.get, h, hp]
    rfl

/-- Witness for C8 at the concrete greeting store. -/
theorem kv_render_spec_witness :
    kvGreeting.getJson "greeting"
        = some { id := "greeting", prompt := "Hello \x7b\x7bname\x7d\x7d!", version := 1 }
    ∧ KV.render kvGreeting "greeting" [("name", "World")] = .ok "Hello World!" :=
  ⟨rfl,
    (kv_render_spec kvGreeting "greeting" [("name", "World")]).2.2
      { id := "greeting", prompt := "Hello \x7b\x7bname\x7d\x7d!", version := 1 } rfl rfl⟩

end Teleprompter

namespace Teleprompter

/-- C3: with a truthy base URL configured, each of the six operations
issues exactly its one request (no retry), and whenever the response to
that request is non-success the operation fails with the HTTP status error
carrying that response's status. The equations hold for every body type
and every response body, so the failure depends only on the status flag
and code: all non-success statuses are treated alike and the error body is
never inspected. -/
theorem http_error_policy {β : Type} (cfg : HTTPConfig) (world : Request → Response β)
    (id : String) (p : PromptInput) (version : Int)
    (hb : strTruthy cfg.baseUrl = true) :
    ((HTTP.listPrompts cfg world).2 = [reqOf cfg "/prompts" "GET" none]
      ∧ ((world (reqOf cfg "/prompts" "GET" none)).ok = false →
          (HTTP.listPrompts cfg world).1
            = .error (.httpError (world (reqOf cfg "/prompts" "GET" none)).status)))
    ∧ ((HTTP.getPrompt cfg world id).2 = [reqOf cfg ("/prompts/" ++ id) "GET" none]
      ∧ ((world (reqOf cfg ("/prompts/" ++ id) "GET" none)).ok = false →
          (HTTP.getPrompt cfg world id).1
            = .error (.httpError (world (reqOf cfg ("/prompts/" ++ id) "GET" none)).status)))
    ∧ ((HTTP.getPromptVersions cfg world id).2
          = [reqOf cfg ("/prompts/" ++ id ++ "/versions") "GET" none]
      ∧ ((world (reqOf cfg ("/prompts/" ++ id ++ "/versions") "GET" none)).ok = false →
          (HTTP.getPromptVersions cfg world id).1
            = .error (.httpError
                (world (reqOf cfg ("/prompts/" ++ id ++ "/versions") "GET" none)).status)))
    ∧ ((HTTP.writePrompt cfg world p).2
          = [reqOf cfg "/prompts" "POST" (some (stringifyPromptInput p))]
      ∧ ((world (reqOf cfg "/prompts" "POST" (some (stringifyPromptInput p)))).ok = false →
          (HTTP.writePrompt cfg world p).1
            = .error (.httpError
                (world (reqOf cfg "/prompts" "POST" (some (stringifyPromptInput p)))).status)))
    ∧ ((HTTP.deletePrompt cfg world id).2 = [reqOf cfg ("/prompts/" ++ id) "DELETE" none]
      ∧ ((world (reqOf cfg ("/prompts/" ++ id) "DELETE" none)).ok = false →
          (HTTP.deletePrompt cfg world id).1
            = .error (.httpError (world (reqOf cfg ("/prompts/" ++ id) "DELETE" none)).status)))
    ∧ ((HTTP.rollbackPrompt cfg world id version).2
          = [reqOf cfg ("/prompts/" ++ id ++ "/versions/" ++ toString version) "POST" none]
      ∧ ((world (reqOf cfg ("/prompts/" ++ id ++ "/versions/" ++ toString version)
              "POST" none)).ok = false →
          (HTTP.rollbackPrompt cfg world id version).1
            = .error (.httpError
                (world (reqOf cfg ("/prompts/" ++ id ++ "/versions/" ++ toString version)
                  "POST" none)).status))) := by
  have hf : ∀ path method b, HTTP.fetch cfg world path method b
      = (.ok (world (reqOf cfg path method b)), [reqOf cfg path method b]) := by
    intro path method b
    simp [HTTP.fetch, hb]
  refine ⟨⟨?_, ?_⟩, ⟨?_, ?_⟩, ⟨?_, ?_⟩, ⟨?_, ?_⟩, ⟨?_, ?_⟩, ⟨?_, ?_⟩⟩
  · simp [HTTP.listPrompts, hf, apply_ite]
  · intro h
    simp [HTTP.listPrompts, hf, h]
  · simp [HTTP.getPrompt, hf, apply_ite]
  · intro h
    simp [HTTP.getPrompt, hf, h]
  · simp [HTTP.getPromptVersions, hf, apply_ite]
  · intro h
    simp [HTTP.getPromptVersions, hf, h]
  · simp [HTTP.writePrompt, hf, apply_ite]
  · intro h
    simp [HTTP.writePrompt, hf, h]
  · simp [HTTP.deletePrompt, hf, apply_ite]
  · intro h
    simp [HTTP.deletePrompt, hf, h]
  · simp [HTTP.rollbackPrompt, hf, apply_ite]
  · intro h
    simp [HTTP.rollbackPrompt, hf, h]

/-- Witness for C3: a client with a concrete base URL against a transport
answering 418; listing fails with the status error carrying 418, having
issued exactly one request. -/
theorem http_error_policy_witness :
    strTruthy (HTTP.construct (.url "https://api.example.com")).baseUrl = true
    ∧ (wTeapot (reqOf (HTTP.construct (.url "https://api.example.com"))
          "/prompts" "GET" none)).ok = false
    ∧ (HTTP.listPrompts (HTTP.construct (.url "https://api.example.com")) wTeapot).1
        = .error (.httpError 418)
    ∧ (HTTP.listPrompts (HTTP.construct (.url "https://api.example.com")) wTeapot).2
        = [reqOf (HTTP.construct (.url "https://api.example.com")) "/prompts" "GET" none] := by
  have h := http_error_policy (HTTP.construct (.url "https://api.example.com")) wTeapot
    "p" { id := "p", prompt := "b" } 1 (by decide)
  exact ⟨by decide, rfl, h.1.2 rfl, h.1.1⟩

end Teleprompter

namespace Teleprompter

/-- C1 (counterexample): the Registry Client's `rollbackPrompt` at a
concrete id and target version issues exactly one POST request to the
version endpoint — it fetches no versions (no GET is issued) — and when
the target version does not exist (the server answers 404) it fails with
the HTTP status error, not with the version-not-found error. -/
theorem rollback_http_counterexample :
    HTTP.rollbackPrompt (HTTP.construct (.url "https://api.example.com")) w404 "p" 3
      = (.error (.httpError 404),
         [{ url := "https://api.example.com/prompts/p/versions/3",
            method := "POST", body := none }])
    ∧ (HTTP.rollbackPrompt (HTTP.construct (.url "https://api.example.com")) w404 "p" 3).1
        ≠ .error SdkError.versionNotFound
    ∧ ∀ r ∈ (HTTP.rollbackPrompt (HTTP.construct (.url "https://api.example.com"))
          w404 "p" 3).2, r.method ≠ "GET" := by
  refine ⟨rfl, ?_, by decide⟩
  intro hc
  have hc' : (Except.error (SdkError.httpError 404) : Except SdkError Unit)
      = .error .versionNotFound := hc
  simp at hc'

/-- C1 (amended): the fetch-all-versions / exact-match / re-write rollback
belongs to the legacy DO-backed SDK, whose `rollbackPrompt` finds the
version equal to the target among the fetched versions, issues exactly the
write carrying that version's body, and on no match fails with the
version-not-found error issuing no write; the HTTP Registry Client's
`rollbackPrompt` instead issues a single POST to
/prompts/{id}/versions/{version} and fails with the HTTP status error on a
non-success response. -/
theorem rollback_amended_spec {β : Type} (cfg : HTTPConfig) (world : Request → Response β)
    (id : String) (version : Int)
    (getVersions : String → List Prompt) (write : PromptInput → Except SdkError Unit)
    (hb : strTruthy cfg.baseUrl = true) :
    ((HTTP.rollbackPrompt cfg world id version).2
        = [reqOf cfg ("/prompts/" ++ id ++ "/versions/" ++ toString version) "POST" none]
      ∧ ((world (reqOf cfg ("/prompts/" ++ id ++ "/versions/" ++ toString version)
              "POST" none)).ok = false →
          (HTTP.rollbackPrompt cfg world id version).1
            = .error (.httpError
                (world (reqOf cfg ("/prompts/" ++ id ++ "/versions/" ++ toString version)
                  "POST" none)).status)))
    ∧ (∀ v, (getVersions id).find? (fun x => x.version == version) = some v →
        TeleprompterDOSDK.rollbackPrompt getVersions write id version
          = (write { id := id, prompt := v.prompt }, [{ id := id, prompt := v.prompt }]))
    ∧ ((getVersions id).find? (fun x => x.version == version) = none →
        TeleprompterDOSDK.rollbackPrompt getVersions write id version
          = (.error .versionNotFound, [])) := by
  have hf : ∀ path method b, HTTP.fetch cfg world path method b
      = (.ok (world (reqOf cfg path method b)), [reqOf cfg path method b]) := by
    intro path method b
    simp [HTTP.fetch, hb]
  refine ⟨⟨?_, ?_⟩, ?_, ?_⟩
  · simp [HTTP.rollbackPrompt, hf, apply_ite]
  · intro h
    simp [HTTP.rollbackPrompt, hf, h]
  · intro v hv
    simp [TeleprompterDOSDK.rollbackPrompt, hv]
  · intro hv
    simp [TeleprompterDOSDK.rollbackPrompt, hv]

/-- Witness for C1's amended statement: a client with a concrete base URL
issues the single POST; the DO SDK rolls id "p" back to existing version 2
by writing that version's body, and fails with the version-not-found error
for absent version 99 without writing. -/
theorem rollback_amended_spec_witness :
    strTruthy (HTTP.construct (.url "https://api.example.com")).baseUrl = true
    ∧ (HTTP.rollbackPrompt (HTTP.construct (.url "https://api.example.com")) wOk "p" 2).2
        = [reqOf (HTTP.construct (.url "https://api.example.com"))
            ("/prompts/" ++ "p" ++ "/versions/" ++ toString (2 : Int)) "POST" none]
    ∧ (vlist "p").find? (fun x => x.version == (2 : Int))
        = some { id := "p", prompt := "body-v2", version := 2 }
    ∧ TeleprompterDOSDK.rollbackPrompt vlist wrOk "p" 2
        = (.ok (), [{ id := "p", prompt := "body-v2" }])
    ∧ (vlist "p").find? (fun x => x.version == (99 : Int)) = none
    ∧ TeleprompterDOSDK.rollbackPrompt vlist wrOk "p" 99
        = (.error .versionNotFound, []) := by
  have h2 := rollback_amended_spec (HTTP.construct (.url "https://api.example.com")) wOk
    "p" 2 vlist wrOk (by decide)
  have h99 := rollback_amended_spec (HTTP.construct (.url "https://api.example.com")) wOk
    "p" 99 vlist wrOk (by decide)
  refine ⟨by decide, h2.1.1, by decide, ?_, by decide, h99.2.2 (by decide)⟩
  exact h2.2.1 { id := "p", prompt := "body-v2", version := 2 } (by decide)

end Teleprompter
